import Mathlib

/-!
Verification of the `ContextTrait` value-view contract (src/context_trait.rs)
and the `Content` derive generator (tera-derive/src/lib.rs) of the tera fork.

The trait-object world of `ContextTrait` is shallowly embedded as one inductive
`Ctx` whose constructors are the concrete adapter kinds appearing in the
source, and each trait operation becomes one total function on `Ctx` whose
branches are translated impl-by-impl from the Rust file.  Branches where an
impl does not override a defaulted trait method translate the trait default.
-/

set_option autoImplicit false

/-- The `ContextType` enum of context_trait.rs: a closed tag set of shapes. -/
inductive ContextType where
  | Object
  | Array
  | Number
  | String
  | Bool
  | Null
deriving DecidableEq, Repr

/-- Model of an IEEE host float (`f32`/`f64`) restricted to the observations
the source makes of one: comparison with zero, the NaN test, and decimal
display.  Finite values are carried as rationals; `-0.0` is identified with
`0` (they compare equal, and both display without a sign in this model). -/
inductive Fp where
  | nan
  | inf
  | negInf
  | finite (q : ℚ)
deriving DecidableEq, Repr

/-- The host `!= 0` comparison on a float: NaN and both infinities compare
unequal to zero; a finite value is unequal to zero iff it is nonzero. -/
def fpNe0 : Fp → Bool
  | .nan => true
  | .inf => true
  | .negInf => true
  | .finite q => decide (q ≠ 0)

/-- The host `is_nan` test. -/
def fpIsNan : Fp → Bool
  | .nan => true
  | _ => false

/-- serde_json's `Number`: the source probes it with `is_i64` / `is_u64` and
falls through to `as_f64`.  The three constructors resolve those probes:
`int` is the `is_i64` case, `uint` the `is_u64`-only case (magnitude above
`i64::MAX`), `float` the floating case. -/
inductive JNumber where
  | int (i : ℤ)
  | uint (n : ℕ)
  | float (f : Fp)
deriving DecidableEq, Repr

/-- serde_json's `Value`.  Object entries are carried in the map's iteration
order (serde_json's default map is ordered by key). -/
inductive JValue where
  | null
  | bool (b : Bool)
  | num (n : JNumber)
  | str (s : String)
  | arr (xs : List JValue)
  | obj (es : List (String × JValue))

/-- `impl ContextTrait for Number`, `is_truthy`: the `is_i64` branch tests
`as_i64 != 0`, the `is_u64` branch `as_u64 != 0`, and the float fallthrough
is `f != 0.0 && !f.is_nan()` — so a NaN float would be falsy here. -/
def JNumber.isTruthy : JNumber → Bool
  | .int i => i != 0
  | .uint n => n != 0
  | .float f => fpNe0 f && !(fpIsNan f)

/-- `Number::render_capacity_hint`: 5 when truthy, else 0. -/
def JNumber.renderCapacityHint (n : JNumber) : ℕ :=
  if n.isTruthy then 5 else 0

/-- `Value::is_truthy`.  The `Number` arm inlines the same probe sequence as
`Number::is_truthy` (including the `!f.is_nan()` conjunct). -/
def JValue.isTruthy : JValue → Bool
  | .num n => n.isTruthy
  | .bool b => b
  | .null => false
  | .str s => !s.isEmpty
  | .arr xs => !xs.isEmpty
  | .obj es => !es.isEmpty

/-- `Value::get_type`. -/
def JValue.getType : JValue → ContextType
  | .num _ => .Number
  | .bool _ => .Bool
  | .null => .Null
  | .str _ => .String
  | .arr _ => .Array
  | .obj _ => .Object

/-- `Value::len`: delegates to the inner adapters (`Number`/`bool` report 1,
strings their byte length, arrays and objects their entry count). -/
def JValue.len : JValue → ℕ
  | .num _ => 1
  | .bool _ => 1
  | .null => 0
  | .str s => s.utf8ByteSize
  | .arr xs => xs.length
  | .obj es => es.length

mutual
/-- `Value::render_capacity_hint`: numbers/bools/strings delegate to their
adapters, `Null` and `Object` report 0, arrays sum their items' hints
(via the `Vec<Value>` adapter). -/
def JValue.renderCapacityHint : JValue → ℕ
  | .num n => n.renderCapacityHint
  | .bool _ => 5
  | .null => 0
  | .str s => s.utf8ByteSize
  | .arr xs => jvalListHint xs
  | .obj _ => 0

/-- The `Vec<Value>` capacity hint: the sum of the items' hints. -/
def jvalListHint : List JValue → ℕ
  | [] => 0
  | x :: xs => x.renderCapacityHint + jvalListHint xs
end

/-- Decimal digits of the fractional part of `num / den`, by long division,
with enough fuel for every value the model meets; trailing zeros stop the
expansion because the remainder reaches 0. -/
def fracDigits (num den : ℕ) : ℕ → String
  | 0 => ""
  | fuel + 1 =>
    if num = 0 then ""
    else Nat.repr (num * 10 / den) ++ fracDigits (num * 10 % den) den fuel

/-- Decimal display of a model float, standing in for the host float
formatter: finite dyadic values print as sign, integer part, and (when
nonzero) fractional digits, as the host shortest-roundtrip formatter does
for such values. -/
def fpToString : Fp → String
  | .nan => "NaN"
  | .inf => "inf"
  | .negInf => "-inf"
  | .finite q =>
    let a := q.num.natAbs
    let ds := fracDigits (a % q.den) q.den 1100
    (if q < 0 then "-" else "") ++ Nat.repr (a / q.den)
      ++ (if ds = "" then "" else "." ++ ds)

/-- Display of a serde_json number: integers in decimal, floats via the
float formatter. -/
def jnumToString : JNumber → String
  | .int i => toString i
  | .uint n => Nat.repr n
  | .float f => fpToString f

/-- JSON escaping of one character, as serde_json's serializer does it. -/
def jsonEscapeChar (c : Char) : String :=
  if c = '"' then "\\\""
  else if c = '\\' then "\\\\"
  else if c = '\n' then "\\n"
  else if c = '\r' then "\\r"
  else if c = '\t' then "\\t"
  else if c.toNat = 8 then "\\b"
  else if c.toNat = 12 then "\\f"
  else if c.toNat < 32 then
    "\\u00" ++ Nat.repr (c.toNat / 16) ++ Nat.repr (c.toNat % 16)
  else String.singleton c

/-- A JSON string literal: quotes around the escaped characters. -/
def jsonQuote (s : String) : String :=
  "\"" ++ String.join (s.data.map jsonEscapeChar) ++ "\""

mutual
/-- The `Display` form of a serde_json `Value` (compact serialization),
which `Value::render` writes to the sink. -/
def jsonToString : JValue → String
  | .null => "null"
  | .bool b => if b then "true" else "false"
  | .num n => jnumToString n
  | .str s => jsonQuote s
  | .arr xs => "[" ++ jsonJoinArr xs ++ "]"
  | .obj es => "\x7b" ++ jsonJoinObj es ++ "\x7d"

/-- Comma-joined serialization of array items. -/
def jsonJoinArr : List JValue → String
  | [] => ""
  | [x] => jsonToString x
  | x :: xs => jsonToString x ++ "," ++ jsonJoinArr xs

/-- Comma-joined serialization of object entries. -/
def jsonJoinObj : List (String × JValue) → String
  | [] => ""
  | [e] => jsonQuote e.1 ++ ":" ++ jsonToString e.2
  | e :: es => jsonQuote e.1 ++ ":" ++ jsonToString e.2 ++ "," ++ jsonJoinObj es
end

/-- The IO error a sink write can produce. -/
inductive IoErr where
  | sinkErr
deriving DecidableEq, Repr

/-- Model of the `&mut dyn Write` sink: the text written so far, and whether
further writes succeed. -/
structure Sink where
  out : String
  good : Bool
deriving DecidableEq, Repr

/-- One `write!` to the sink: appends when the sink is good, fails otherwise. -/
def Sink.write (s : Sink) (chunk : String) : Except IoErr Sink :=
  if s.good then .ok ⟨s.out ++ chunk, s.good⟩ else .error .sinkErr

/-- The universe of concrete `ContextTrait` implementors the source declares,
one constructor per impl (or per `duplicate_item` family):
`intNum` stands for the twelve primitive integer impls, `floatNum` for
`f32`/`f64`, `str` for `&str`/`String`, `arr` for `Vec<T>`/`[T]`,
`res` for `Result<T, U>` (the error payload, only `Debug + Clone` in the
source and never consulted, is dropped), `pair` for `(K, V)`,
`hmap`/`bmap` for `HashMap`/`BTreeMap` with entries in iteration order,
`jval` for serde_json `Value`, and `ptr` for the four forwarding
indirections `&T` / `Box<T>` / `Rc<T>` / `Arc<T>`. -/
inductive Ctx where
  | intNum (i : ℤ)
  | floatNum (f : Fp)
  | bool (b : Bool)
  | str (s : String)
  | unit
  | opt (o : Option Ctx)
  | res (r : Option Ctx)
  | arr (xs : List Ctx)
  | pair (k : String) (v : Ctx)
  | hmap (es : List (String × Ctx))
  | bmap (es : List (String × Ctx))
  | jval (v : JValue)
  | ptr (c : Ctx)

/-- `is_truthy`, impl by impl.  Numbers test `*self != 0 as number_type`
(for floats this is the IEEE comparison, so NaN passes); wrappers test
presence/success; sequences and maps non-emptiness; `()` is always false;
pairs and indirections forward. -/
def Ctx.isTruthy : Ctx → Bool
  | .intNum i => i != 0
  | .floatNum f => fpNe0 f
  | .bool b => b
  | .str s => !s.isEmpty
  | .unit => false
  | .opt o => o.isSome
  | .res r => r.isSome
  | .arr xs => !xs.isEmpty
  | .pair _ v => v.isTruthy
  | .hmap es => !es.isEmpty
  | .bmap es => !es.isEmpty
  | .jval v => v.isTruthy
  | .ptr c => c.isTruthy

mutual
/-- `render_capacity_hint`, impl by impl.  Numbers and bools report the
constant 5; strings their byte length; `()` takes the trait default 0;
wrappers forward or report 0; sequences and both map kinds sum their
children's hints; pairs report the value's hint; indirections forward. -/
def Ctx.renderCapacityHint : Ctx → ℕ
  | .intNum _ => 5
  | .floatNum _ => 5
  | .bool _ => 5
  | .str s => s.utf8ByteSize
  | .unit => 0
  | .opt none => 0
  | .opt (some c) => c.renderCapacityHint
  | .res none => 0
  | .res (some c) => c.renderCapacityHint
  | .arr xs => ctxListHint xs
  | .pair _ v => v.renderCapacityHint
  | .hmap es => ctxEntriesHint es
  | .bmap es => ctxEntriesHint es
  | .jval v => v.renderCapacityHint
  | .ptr c => c.renderCapacityHint

/-- The `Vec<T>`/`[T]` capacity hint: the sum of the items' hints. -/
def ctxListHint : List Ctx → ℕ
  | [] => 0
  | x :: xs => x.renderCapacityHint + ctxListHint xs

/-- The map capacity hint: the sum of the values' hints. -/
def ctxEntriesHint : List (String × Ctx) → ℕ
  | [] => 0
  | e :: es => e.2.renderCapacityHint + ctxEntriesHint es
end

/-- `render`, impl by impl.  Numbers, bools and strings `write!` their
display form; serde_json values write their `Display` (compact JSON);
absent/failed wrappers and every impl without a `render` override —
`()`, sequences, pairs, both map kinds — take the trait default, which
writes nothing and returns `Ok(())`; present wrappers and indirections
forward. -/
def Ctx.render : Ctx → Sink → Except IoErr Sink
  | .intNum i, s => s.write (toString i)
  | .floatNum f, s => s.write (fpToString f)
  | .bool b, s => s.write (if b then "true" else "false")
  | .str t, s => s.write t
  | .unit, s => .ok s
  | .opt none, s => .ok s
  | .opt (some c), s => c.render s
  | .res none, s => .ok s
  | .res (some c), s => c.render s
  | .arr _, s => .ok s
  | .pair _ _, s => .ok s
  | .hmap _, s => .ok s
  | .bmap _, s => .ok s
  | .jval v, s => s.write (jsonToString v)
  | .ptr c, s => c.render s

/-- `BTreeMap::get` on the model's entry list: the value stored at the key. -/
def mapGet : List (String × Ctx) → String → Option Ctx
  | [], _ => none
  | (k, v) :: es, q => if k = q then some v else mapGet es q

/-- `pointer`, impl by impl.  Only the `BTreeMap` impl overrides the trait
default: it does `self.get(key)` with no special case at all.  Every other
impl — including `HashMap`, `Option`, `Result`, serde_json `Value` and the
four indirections — inherits the default, which returns the receiver for
`"."` or the empty key and `None` otherwise (`is_empty()` is rendered as
comparison with the empty string). -/
def Ctx.pointer : Ctx → String → Option Ctx
  | .bmap es, key => mapGet es key
  | c, key => if key == "." || key == "" then some c else none

/-- `context_iter`, impl by impl.  Sequences enumerate their items with the
index rendered in decimal (`index.to_string()`); both map kinds yield their
entries in iteration order; serde_json `Value` yields entries only for
`Object` (the `Array` arm of the source is commented out, so arrays yield
`None`); wrappers forward on presence/success; scalars, pairs and `()`
take the trait default `None`; indirections forward. -/
def Ctx.contextIter : Ctx → Option (List (String × Ctx))
  | .opt none => none
  | .opt (some c) => c.contextIter
  | .res none => none
  | .res (some c) => c.contextIter
  | .arr xs => some (xs.enum.map (fun p => (Nat.repr p.1, p.2)))
  | .hmap es => some es
  | .bmap es => some es
  | .jval (.obj es) => some (es.map (fun e => (e.1, Ctx.jval e.2)))
  | .jval _ => none
  | .ptr c => c.contextIter
  | _ => none

/-- `get_type`, impl by impl.  Numbers are `Number`, `()` is `Null`,
wrappers report the inner type or `Null`, sequences `Array`, both map
kinds `Object`, pairs the value's type, serde_json values their own tag,
indirections forward. -/
def Ctx.getType : Ctx → ContextType
  | .intNum _ => .Number
  | .floatNum _ => .Number
  | .bool _ => .Bool
  | .str _ => .String
  | .unit => .Null
  | .opt none => .Null
  | .opt (some c) => c.getType
  | .res none => .Null
  | .res (some c) => c.getType
  | .arr _ => .Array
  | .pair _ v => v.getType
  | .hmap _ => .Object
  | .bmap _ => .Object
  | .jval v => v.getType
  | .ptr c => c.getType

/-- `len`, impl by impl.  Numbers and bools report 1, strings their byte
length, `()` 0, wrappers the inner length or 0, sequences and maps their
entry count, pairs 1, serde_json values their own length, indirections
forward. -/
def Ctx.len : Ctx → ℕ
  | .intNum _ => 1
  | .floatNum _ => 1
  | .bool _ => 1
  | .str s => s.utf8ByteSize
  | .unit => 0
  | .opt none => 0
  | .opt (some c) => c.len
  | .res none => 0
  | .res (some c) => c.len
  | .arr xs => xs.length
  | .pair _ _ => 1
  | .hmap es => es.length
  | .bmap es => es.length
  | .jval v => v.len
  | .ptr c => c.len

/-- Shape test singling out the sequence and map adapters (`Vec<T>`/`[T]`,
`HashMap`, `BTreeMap`). -/
def Ctx.isSeqOrMap : Ctx → Bool
  | .arr _ => true
  | .hmap _ => true
  | .bmap _ => true
  | _ => false

/-- Shape test singling out the `BTreeMap` adapter, the only impl that
overrides `pointer`. -/
def Ctx.isBmap : Ctx → Bool
  | .bmap _ => true
  | _ => false

/-!
Model of the `#[derive(Content)]` generator of tera-derive/src/lib.rs.
A field arrives already attribute-parsed (the model has no malformed-attribute
inputs; in the source those abort generation with compile diagnostics).
`hint` carries the capacity hint the field's value reports at runtime, so the
emitted `capacity_hint` body can be evaluated on a record instance.
-/

/-- One declared field of the record handed to the derive: its accessor name
(identifier, or decimal index for tuple structs), the parsed `#[tera(...)]`
directives, and the runtime capacity hint of its value. -/
structure SField where
  name : String
  skipAttr : Bool
  flattenAttr : Bool
  renameAttr : Option String
  callbackAttr : Option String
  hint : ℕ
deriving DecidableEq, Repr

/-- The effective external name: the `rename` directive when present,
otherwise the declared name. -/
def effectiveName (f : SField) : String :=
  (f.renameAttr).getD f.name

/-- The 64-bit FNV-1a offset basis. -/
def fnvOffset : ℕ := 0xcbf29ce484222325

/-- The 64-bit FNV-1a prime. -/
def fnvPrime : ℕ := 0x100000001b3

/-- FNV-1a over a byte list, folded left with 64-bit wraparound. -/
def fnv1a (bytes : List ℕ) : ℕ :=
  bytes.foldl (fun h b => ((h ^^^ b) * fnvPrime) % 2 ^ 64) fnvOffset

/-- The bytes the host hashes for a string: its UTF-8 bytes followed by the
0xff terminator the `Hash for str` impl appends.  Field identifiers are
ASCII, where code points and UTF-8 bytes coincide. -/
def strHashBytes (s : String) : List ℕ :=
  s.data.map Char.toNat ++ [0xff]

/-- The fingerprint the generator stores for a field: FNV-1a of the
effective external name. -/
def fieldHash (f : SField) : ℕ :=
  fnv1a (strHashBytes (effectiveName f))

/-- The fields kept for hashed dispatch: the generator drops a field when
its `skip` directive is set, and the `flatten` directive also sets `skip`,
so flattened fields are dropped from dispatch too. -/
def dispatchFields (fs : List SField) : List SField :=
  fs.filter (fun f => !f.skipAttr && !f.flattenAttr)

/-- The flatten list: the accessors of the flattened fields, in declaration
order. -/
def flattenAccessors (fs : List SField) : List String :=
  (fs.filter (fun f => f.flattenAttr)).map (fun f => f.name)

/-- The dispatch fields sorted ascending by fingerprint (`sort_unstable` on
the hash ordering; ties, which only arise from FNV collisions, keep an
unspecified order in the host and declaration order here). -/
def sortedDispatch (fs : List SField) : List SField :=
  (dispatchFields fs).mergeSort (fun a b => fieldHash a ≤ fieldHash b)

/-- One row of the emitted `match` table: the fingerprint, the accessor it
selects, and the callback routine substituted for the field's own `render`
when the `callback` directive is present. -/
structure DispatchRow where
  hash : ℕ
  accessor : String
  callback : Option String
deriving DecidableEq, Repr

/-- The shape of the impl block the derive emits, recorded at the level the
emitted tokens determine: which trait it targets, which methods it defines,
which accessors the `capacity_hint` body sums, the parameters and match
scrutinee of the emitted `render`, the identifier the hit arms pass to the
field's render, the sorted dispatch table, and the flatten accessors of the
miss arm. -/
structure EmittedImpl where
  traitName : String
  methodNames : List String
  capacityAccessors : List String
  capacityCallArg : String
  renderParams : List String
  renderScrutinee : String
  renderArmSink : String
  renderTable : List DispatchRow
  renderFallback : List String
deriving DecidableEq, Repr

/-- The generator's output for a record, token arm by token arm from the
`quote!` block: an impl of `Content` defining only `capacity_hint` and
`render`; `capacity_hint` sums `self.<field>.capacity_hint(tpl)` over the
sorted dispatch fields; `render(&self, write)` matches on `hash` with one
arm per dispatch row calling `self.<field>.render(encoder)` (or the
callback), and a final arm folding the flattened accessors' `render`
results with short-circuit or. -/
def contentDerive (fs : List SField) : EmittedImpl where
  traitName := "Content"
  methodNames := ["capacity_hint", "render"]
  capacityAccessors := (sortedDispatch fs).map (fun f => f.name)
  capacityCallArg := "tpl"
  renderParams := ["self", "write"]
  renderScrutinee := "hash"
  renderArmSink := "encoder"
  renderTable := (sortedDispatch fs).map (fun f => ⟨fieldHash f, f.name, f.callbackAttr⟩)
  renderFallback := flattenAccessors fs

/-- The emitted `capacity_hint`, evaluated on a record instance whose fields
report the hints recorded in `SField.hint`: the sum over the accessors the
emitted body names, i.e. over the sorted dispatch fields. -/
def emittedCapacityHint (fs : List SField) : ℕ :=
  ((sortedDispatch fs).map (fun f => f.hint)).sum

/-- The capacity hint the spec describes, stated from the spec's words for
comparison with `emittedCapacityHint`: the sum of the hints of all
non-skipped fields, flattened fields included. -/
def specCapacityHintNonSkipped (fs : List SField) : ℕ :=
  ((fs.filter (fun f => !f.skipAttr)).map (fun f => f.hint)).sum

/-!
Theorems settling the claims.
-/

/-- C1 counterexample: the `BTreeMap` adapter's overriding `pointer` does a
plain key lookup, so on an empty ordered map both `pointer(".")` and
`pointer("")` return `None`, not the receiver — refuting the claim that
every implementing kind maps them to the receiver. -/
theorem btree_pointer_dot_missing :
    Ctx.pointer (Ctx.bmap []) "." = none ∧ Ctx.pointer (Ctx.bmap []) "" = none :=
  ⟨rfl, rfl⟩

/-- C1 (amended): for every implementing kind except the `BTreeMap` adapter,
`pointer(".")` and `pointer("")` return the receiver itself; the `BTreeMap`
override treats those strings as ordinary map keys. -/
theorem pointer_dot_returns_receiver (c : Ctx) (h : c.isBmap = false) :
    Ctx.pointer c "." = some c ∧ Ctx.pointer c "" = some c := by
  cases c <;> simp_all [Ctx.pointer, Ctx.isBmap]

/-- C1 witness: the amended theorem applied to the `()` adapter. -/
theorem pointer_dot_returns_receiver_witness :
    Ctx.pointer Ctx.unit "." = some Ctx.unit ∧ Ctx.pointer Ctx.unit "" = some Ctx.unit :=
  pointer_dot_returns_receiver Ctx.unit rfl

/-- C2 counterexample: the indirection impls do not override `pointer`, so
a boxed ordered map does not forward a key lookup — the wrapper misses a
key the inner value resolves. -/
theorem indirection_pointer_not_forwarded :
    Ctx.pointer (Ctx.ptr (Ctx.bmap [("a", Ctx.unit)])) "a" = none ∧
    Ctx.pointer (Ctx.bmap [("a", Ctx.unit)]) "a" = some Ctx.unit :=
  ⟨rfl, rfl⟩

/-- C2 (amended): the indirection adapters forward `is_truthy`,
`render_capacity_hint`, `render`, `context_iter`, `get_type` and `len` to
the inner value unchanged, but not `pointer`: that one is not overridden,
so the wrapper answers with the trait default — the wrapper itself for
`"."`/`""`, `None` for every other key, whatever the inner value would say. -/
theorem indirection_forwarding (c : Ctx) (s : Sink) (k : String) :
    Ctx.isTruthy (Ctx.ptr c) = Ctx.isTruthy c ∧
    Ctx.renderCapacityHint (Ctx.ptr c) = Ctx.renderCapacityHint c ∧
    Ctx.render (Ctx.ptr c) s = Ctx.render c s ∧
    Ctx.contextIter (Ctx.ptr c) = Ctx.contextIter c ∧
    Ctx.getType (Ctx.ptr c) = Ctx.getType c ∧
    Ctx.len (Ctx.ptr c) = Ctx.len c ∧
    Ctx.pointer (Ctx.ptr c) k = (if k = "." ∨ k = "" then some (Ctx.ptr c) else none) := by
  refine ⟨rfl, rfl, rfl, rfl, rfl, rfl, ?_⟩
  by_cases h1 : k = "." <;> by_cases h2 : k = "" <;> simp [Ctx.pointer, h1, h2]

/-- C4 counterexample: the `HashMap` adapter does not override `pointer`,
so a present key is not looked up — the entry exists (`mapGet` finds it)
yet `pointer` returns `None`. -/
theorem hashmap_pointer_no_lookup :
    Ctx.pointer (Ctx.hmap [("a", Ctx.unit)]) "a" = none ∧
    mapGet [("a", Ctx.unit)] "a" = some Ctx.unit :=
  ⟨rfl, rfl⟩

/-- C4 (amended): only the `BTreeMap` adapter performs direct key lookup —
a key at the head is resolved to its value, and a lookup succeeds exactly
when the key occurs in the map; the `HashMap` adapter keeps the trait
default, returning the receiver for `"."`/`""` and `None` for every other
key, present or not. -/
theorem map_pointer_behaviour :
    (∀ (k : String) (v : Ctx) (es : List (String × Ctx)),
        Ctx.pointer (Ctx.bmap ((k, v) :: es)) k = some v) ∧
    (∀ (es : List (String × Ctx)) (k : String),
        (Ctx.pointer (Ctx.bmap es) k).isSome = (es.map Prod.fst).contains k) ∧
    (∀ (es : List (String × Ctx)) (k : String),
        Ctx.pointer (Ctx.hmap es) k =
          (if k = "." ∨ k = "" then some (Ctx.hmap es) else none)) := by
  refine ⟨?_, ?_, ?_⟩
  · intro k v es
    simp [Ctx.pointer, mapGet]
  · intro es k
    induction es with
    | nil => simp [Ctx.pointer, mapGet]
    | cons e es ih =>
      obtain ⟨k1, v1⟩ := e
      by_cases h : k1 = k
      · subst h
        simp [Ctx.pointer, mapGet]
      · have h' : ¬k = k1 := fun hk => h hk.symm
        simp_all [Ctx.pointer, mapGet]
  · intro es k
    by_cases h1 : k = "." <;> by_cases h2 : k = "" <;> simp [Ctx.pointer, h1, h2]

/-- C5 counterexample: the serde_json `Number` adapter's float fallthrough
is `f != 0.0 && !f.is_nan()`, so a NaN number is falsy there — refuting the
claim that NaN counts as truthy for every numeric kind. -/
theorem number_nan_falsy :
    Ctx.isTruthy (Ctx.jval (JValue.num (JNumber.float Fp.nan))) = false :=
  rfl

/-- C5 (amended): the primitive integer adapters are truthy iff nonzero;
the primitive float adapters use the IEEE `!= 0` comparison, so NaN is
truthy there; the serde_json `Number` and `Value::Number` adapters are
truthy iff nonzero on integers and on finite floats, but their float branch
additionally requires `!is_nan`, making a NaN number falsy. -/
theorem numeric_truthiness :
    (∀ i : ℤ, Ctx.isTruthy (Ctx.intNum i) = true ↔ i ≠ 0) ∧
    Ctx.isTruthy (Ctx.floatNum Fp.nan) = true ∧
    (∀ q : ℚ, Ctx.isTruthy (Ctx.floatNum (Fp.finite q)) = true ↔ q ≠ 0) ∧
    (∀ i : ℤ, Ctx.isTruthy (Ctx.jval (JValue.num (JNumber.int i))) = true ↔ i ≠ 0) ∧
    (∀ n : ℕ, Ctx.isTruthy (Ctx.jval (JValue.num (JNumber.uint n))) = true ↔ n ≠ 0) ∧
    (∀ q : ℚ, Ctx.isTruthy (Ctx.jval (JValue.num (JNumber.float (Fp.finite q)))) = true ↔ q ≠ 0) ∧
    Ctx.isTruthy (Ctx.jval (JValue.num (JNumber.float Fp.nan))) = false := by
  refine ⟨?_, rfl, ?_, ?_, ?_, ?_, rfl⟩ <;>
    intro x <;>
      simp [Ctx.isTruthy, JValue.isTruthy, JNumber.isTruthy, fpNe0, fpIsNan]

/-- C5 witness: the amended theorem's integer clause applied at 3. -/
theorem numeric_truthiness_witness :
    Ctx.isTruthy (Ctx.intNum 3) = true :=
  (numeric_truthiness.1 3).mpr (by decide)

/-- A record with a single field `f` carrying the `flatten` directive, the
shape of the claimed flatten example. -/
def exampleFlattenRecord : List SField :=
  [⟨"f", false, true, none, none, 0⟩]

/-- C3: evaluating the generator at a record with one flattened field `f`:
the emitted impl (of trait `Content`) defines only `capacity_hint` and
`render` — no `pointer` is emitted at all, so no lookup of the record can
delegate pointer resolution through `f`; moreover the emitted `render`
matches on the identifier `hash`, which is not among its parameters
(`self`, `write`), so the emitted code does not even name a bound
scrutinee; the dispatch table is empty and the miss arm folds over the
flatten accessor `f` with that method's own `render`, not with `pointer`. -/
theorem flatten_dispatch_emits_no_pointer :
    (contentDerive exampleFlattenRecord).methodNames = ["capacity_hint", "render"] ∧
    ((contentDerive exampleFlattenRecord).methodNames.contains "pointer") = false ∧
    (contentDerive exampleFlattenRecord).renderScrutinee = "hash" ∧
    (contentDerive exampleFlattenRecord).renderParams = ["self", "write"] ∧
    ((contentDerive exampleFlattenRecord).renderParams.contains
      (contentDerive exampleFlattenRecord).renderScrutinee) = false ∧
    (contentDerive exampleFlattenRecord).renderTable = [] ∧
    (contentDerive exampleFlattenRecord).renderFallback = ["f"] := by
  refine ⟨rfl, rfl, rfl, rfl, rfl, ?_, rfl⟩
  have h : dispatchFields exampleFlattenRecord = [] := rfl
  simp [contentDerive, sortedDispatch, h]

/-- A record with a plain field `a` whose value reports hint 1 and a
flattened field `f` whose value reports hint 7. -/
def exampleHintRecord : List SField :=
  [⟨"a", false, false, none, none, 1⟩, ⟨"f", false, true, none, none, 7⟩]

/-- C6 counterexample: on a record with a plain field of hint 1 and a
flattened field of hint 7, the emitted `capacity_hint` sums to 1, while the
claimed sum over all non-skipped fields (flattened included) is 8. -/
theorem capacity_hint_excludes_flattened :
    emittedCapacityHint exampleHintRecord = 1 ∧
    specCapacityHintNonSkipped exampleHintRecord = 8 ∧
    emittedCapacityHint exampleHintRecord ≠ specCapacityHintNonSkipped exampleHintRecord := by
  have h1 : dispatchFields exampleHintRecord = [⟨"a", false, false, none, none, 1⟩] := rfl
  have h2 : emittedCapacityHint exampleHintRecord = 1 := by
    simp [emittedCapacityHint, sortedDispatch, h1]
  have h3 : specCapacityHintNonSkipped exampleHintRecord = 8 := rfl
  exact ⟨h2, h3, by rw [h2, h3]; decide⟩

/-- C6 (amended): the emitted `capacity_hint` equals the sum of the hints of
exactly those fields that are neither skipped nor flattened — the `flatten`
directive also marks its field skipped, removing it from the sum. -/
theorem capacity_hint_sums_dispatch_fields (fs : List SField) :
    emittedCapacityHint fs =
      ((fs.filter (fun f => !f.skipAttr && !f.flattenAttr)).map (fun f => f.hint)).sum := by
  unfold emittedCapacityHint sortedDispatch dispatchFields
  exact List.Perm.sum_eq (List.Perm.map _ (List.mergeSort_perm _ _))

/-- C7 counterexample: a serde_json array value is classified `Array`, yet
its `context_iter` yields `None` — the array arm of `Value::context_iter`
is commented out in the source — refuting the claim that every
Array-classified kind produces index/item pairs. -/
theorem value_array_iter_none :
    Ctx.getType (Ctx.jval (JValue.arr [JValue.null])) = ContextType.Array ∧
    Ctx.contextIter (Ctx.jval (JValue.arr [JValue.null])) = none :=
  ⟨rfl, rfl⟩

/-- C7 (amended): the sequence adapters (`Vec<T>`/`[T]`) yield index/item
pairs with the index rendered as the decimal strings "0", "1", …; the map
adapters yield their entries in iteration order; the serde_json adapter
yields key/value pairs for `Object` but `None` for `Array` (its array arm
is commented out); the scalar adapters yield `None`. -/
theorem context_iter_shapes :
    (∀ xs : List Ctx, Ctx.contextIter (Ctx.arr xs) =
        some (((List.range xs.length).map Nat.repr).zip xs)) ∧
    (∀ es, Ctx.contextIter (Ctx.hmap es) = some es) ∧
    (∀ es, Ctx.contextIter (Ctx.bmap es) = some es) ∧
    (∀ es, Ctx.contextIter (Ctx.jval (JValue.obj es)) =
        some (es.map (fun e => (e.1, Ctx.jval e.2)))) ∧
    (∀ xs, Ctx.contextIter (Ctx.jval (JValue.arr xs)) = none) ∧
    (∀ i : ℤ, Ctx.contextIter (Ctx.intNum i) = none) ∧
    (∀ f, Ctx.contextIter (Ctx.floatNum f) = none) ∧
    (∀ b, Ctx.contextIter (Ctx.bool b) = none) ∧
    (∀ s, Ctx.contextIter (Ctx.str s) = none) ∧
    Ctx.contextIter Ctx.unit = none := by
  refine ⟨?_, fun _ => rfl, fun _ => rfl, fun _ => rfl, fun _ => rfl,
    fun _ => rfl, fun _ => rfl, fun _ => rfl, fun _ => rfl, rfl⟩
  intro xs
  simp [Ctx.contextIter, List.enum_eq_zip_range, List.zip_map_left, Prod.map]

/-- C8: for the sequence and map adapters, whenever `context_iter` yields a
non-empty list of pairs, `len()` equals the number of pairs yielded. -/
theorem len_matches_context_iter (c : Ctx) (l : List (String × Ctx))
    (hs : c.isSeqOrMap = true) (hi : c.contextIter = some l) (_hne : l ≠ []) :
    c.len = l.length := by
  cases c <;> simp_all [Ctx.isSeqOrMap, Ctx.contextIter, Ctx.len]
  rw [← hi]
  simp [List.enum_length]

/-- C8 witness: the theorem applied to a one-entry ordered map. -/
theorem len_matches_context_iter_witness :
    Ctx.len (Ctx.bmap [("a", Ctx.unit)]) = [("a", Ctx.unit)].length :=
  len_matches_context_iter _ _ rfl rfl (by simp)

/-- C9: for the optional and fallible wrappers, a falsy receiver (absence or
failure) renders nothing: the sink is returned unchanged — zero bytes
written — with success, whatever the sink's state. -/
theorem falsy_wrapper_renders_nothing (o r : Option Ctx) (s : Sink) :
    (Ctx.isTruthy (Ctx.opt o) = false → Ctx.render (Ctx.opt o) s = .ok s) ∧
    (Ctx.isTruthy (Ctx.res r) = false → Ctx.render (Ctx.res r) s = .ok s) := by
  constructor
  · intro h
    cases o with
    | none => rfl
    | some c => simp [Ctx.isTruthy] at h
  · intro h
    cases r with
    | none => rfl
    | some c => simp [Ctx.isTruthy] at h

/-- C9 witness: the theorem applied to an absent optional over a fresh good
sink. -/
theorem falsy_wrapper_renders_nothing_witness :
    Ctx.render (Ctx.opt none) ⟨"", true⟩ = .ok ⟨"", true⟩ :=
  (falsy_wrapper_renders_nothing none none ⟨"", true⟩).1 rfl

/-- C10: the name/value pair adapter renders nothing — the sink comes back
unchanged with success for every value, even one whose own render writes —
while its `is_truthy`, `get_type` and `render_capacity_hint` all report the
value's results, and its `len` is the constant 1. -/
theorem pair_render_empty_forwards_meta (k : String) (v : Ctx) (s : Sink) :
    Ctx.render (Ctx.pair k v) s = .ok s ∧
    Ctx.isTruthy (Ctx.pair k v) = Ctx.isTruthy v ∧
    Ctx.getType (Ctx.pair k v) = Ctx.getType v ∧
    Ctx.renderCapacityHint (Ctx.pair k v) = Ctx.renderCapacityHint v ∧
    Ctx.len (Ctx.pair k v) = 1 :=
  ⟨rfl, rfl, rfl, rfl, rfl⟩
